import Mathlib

/-!
Verification of the harnman/wrapman configuration manager
(`src/common/config_manager.py`, `src/common/config_editor.py`,
`src/common/base.py`) against its natural-language specification.

JSON documents are embedded as `Json` trees; Python `dict`s become
association lists with first-occurrence lookup, in-place update of an
existing key, and append-at-end insertion of a new key, matching the
observable semantics of Python dictionaries built from parsed JSON
(which never contain duplicate keys).  The filesystem state seen by
`config_manager`/`config_editor` is a directory-exists flag plus a list
of `(filename, parsed content)` entries; `json.dump`/`json.load` are
deterministic and injective on this fragment, so file contents are
modelled by the parsed value itself.  Python exceptions become an
explicit `Err` sum; messages of `KeyError`/`FileNotFoundError`/
`FileExistsError`/`ValueError` are reproduced from the source format
strings, while `TypeError`s raised by the interpreter itself (bad
operand of `in`, bad index type, item assignment on a non-dict) are
modelled by the message-free constructor `Err.typeError`.
-/

set_option linter.unusedVariables false

namespace Harnman

/-- A JSON value.  Numbers are modelled by `Int`: no claim computes with
numeric payloads, they are only stored and retrieved. -/
inductive Json where
  | null
  | bool (b : Bool)
  | num (n : Int)
  | str (s : String)
  | arr (elems : List Json)
  | obj (kvs : List (String × Json))

/-- Python `isinstance(x, dict)`. -/
def Json.isObj : Json → Bool
  | .obj _ => true
  | _ => false

/-- Python exceptions raised by the translated code. -/
inductive Err where
  | keyError (msg : String)
  | typeError
  | indexError
  | fileNotFound (msg : String)
  | fileExists (msg : String)
  | valueError (msg : String)
  deriving DecidableEq

/-- First binding of key `k` in an association list (Python `d[k]` on a
duplicate-free dict). -/
def lookupKV {α : Type} : List (String × α) → String → Option α
  | [], _ => none
  | (k', v) :: rest, k => if k' = k then some v else lookupKV rest k

/-- Python `d[k] = v`: overwrite the first binding of `k` in place, or
append a new binding at the end. -/
def insertKV {α : Type} : List (String × α) → String → α → List (String × α)
  | [], k, v => [(k, v)]
  | (k', v') :: rest, k, v =>
    if k' = k then (k, v) :: rest else (k', v') :: insertKV rest k v

/-- Python `del d[k]`: drop the first binding of `k`. -/
def eraseKV {α : Type} : List (String × α) → String → List (String × α)
  | [], _ => []
  | (k', v') :: rest, k => if k' = k then rest else (k', v') :: eraseKV rest k

/-- Does `needle` occur at the head of `hay`? -/
def listStartsWith : List Char → List Char → Bool
  | [], _ => true
  | _ :: _, [] => false
  | a :: as, b :: bs => a = b && listStartsWith as bs

/-- Python `needle in hay` for strings: substring containment. -/
def listHasSub (needle : List Char) : List Char → Bool
  | [] => needle.isEmpty
  | c :: rest => listStartsWith needle (c :: rest) || listHasSub needle rest

/-- Python `==` between a string `k` and an arbitrary JSON value:
`True` exactly for an equal string. -/
def jsonEqStr (j : Json) (k : String) : Bool :=
  match j with
  | .str s => s = k
  | _ => false

/-- Python `k in ref` for a JSON tree node: key lookup on a dict,
substring test on a string, element equality on a list, and a
`TypeError` on the remaining (non-iterable) scalars. -/
def pyMember (ref : Json) (k : String) : Except Err Bool :=
  match ref with
  | .obj kvs => .ok (lookupKV kvs k).isSome
  | .str s => .ok (listHasSub k.data s.data)
  | .arr xs => .ok (xs.any (fun j => jsonEqStr j k))
  | _ => .error .typeError

/-- Python `ref[k]` with a string index `k`: dict lookup (KeyError when
absent); strings and lists reject a string index with `TypeError`, as do
the scalars. -/
def pyIndexStr (ref : Json) (k : String) : Except Err Json :=
  match ref with
  | .obj kvs =>
    match lookupKV kvs k with
    | some v => .ok v
    | none => .error (.keyError k)
  | _ => .error .typeError

/-- `field_path.split(".")` — Python `str.split` with a one-character
separator, on the character list. -/
def splitPathAux : List Char → List (List Char)
  | [] => [[]]
  | c :: cs =>
    match splitPathAux cs with
    | [] => [[c]]
    | seg :: rest =>
      if c = '.' then [] :: seg :: rest else (c :: seg) :: rest

/-- `field_path.split(".")` at the string level. -/
def splitPath (s : String) : List String :=
  (splitPathAux s.data).map (fun l => String.mk l)

/-- The `KeyError` message used by `read_config_field` /
`delete_config_field`: `f"Key '{field_path}' not found in '{wrapper_name}.json'."`. -/
def keyErrMsg (fpath wname : String) : String :=
  "Key '" ++ fpath ++ "' not found in '" ++ wname ++ ".json'."

/-- The key-walking loop of `read_config_field`
(`config_editor.py:65-72`):
`for key in keys: if key not in ref: raise KeyError(...); ref = ref[key]`. -/
def readPath (wname fpath : String) : Json → List String → Except Err Json
  | ref, [] => .ok ref
  | ref, k :: ks =>
    match pyMember ref k with
    | .error e => .error e
    | .ok false => .error (.keyError (keyErrMsg fpath wname))
    | .ok true =>
      match pyIndexStr ref k with
      | .error e => .error e
      | .ok nxt => readPath wname fpath nxt ks

/-- The amended specification of `get`, written as a direct case tree:
an object lacking the key, a string not containing the key as a
substring, and an array not containing the key as an element all give
the `KeyError` naming the full path and the document identifier; a
number/bool/null node, and a string or array node on which the
membership test succeeds, give a `TypeError`; otherwise traversal
continues and the leaf is returned unmodified. -/
def readPathAmended (wname fpath : String) : Json → List String → Except Err Json
  | ref, [] => .ok ref
  | .obj kvs, k :: ks =>
    match lookupKV kvs k with
    | some v => readPathAmended wname fpath v ks
    | none => .error (.keyError (keyErrMsg fpath wname))
  | .str s, k :: _ =>
    if listHasSub k.data s.data then .error .typeError
    else .error (.keyError (keyErrMsg fpath wname))
  | .arr xs, k :: _ =>
    if xs.any (fun j => jsonEqStr j k) then .error .typeError
    else .error (.keyError (keyErrMsg fpath wname))
  | _, _ :: _ => .error .typeError

/-- The key-walking loop of `update_config_field`
(`config_editor.py:86-94`).  On a dict node the loop reuses an existing
dict child and otherwise overwrites the key with `{}`
(`if key not in ref or not isinstance(ref[key], dict): ref[key] = {}`),
then descends; the final segment is assigned.  On a non-dict node every
branch of the Python loop raises `TypeError` (membership raises on
scalars; string indexing/assignment with a string index raises on
`str`/`list`), and an empty segment list would evaluate `keys[-1]` on
`[]`, an `IndexError` (unreachable through `split`, which never returns
an empty list). -/
def setPath : Json → List String → Json → Except Err Json
  | _, [], _ => .error .indexError
  | .obj kvs, [k], v => .ok (.obj (insertKV kvs k v))
  | _, [_], _ => .error .typeError
  | .obj kvs, k :: k2 :: ks, v =>
    let child : Json :=
      match lookupKV kvs k with
      | some (.obj m) => .obj m
      | _ => .obj []
    match setPath child (k2 :: ks) v with
    | .error e => .error e
    | .ok child2 => .ok (.obj (insertKV kvs k child2))
  | _, _ :: _ :: _, _ => .error .typeError

/-- The key-walking loop of `delete_config_field`
(`config_editor.py:110-121`).  All but the last segment:
`if key not in ref or not isinstance(ref[key], dict): raise KeyError(...)`,
else descend; last segment:
`if last_key in ref: del ref[last_key] else: raise KeyError(...)`.
Python `in`/indexing on non-dict nodes behave as in `pyMember` /
`pyIndexStr`: a string or list node raises `TypeError` when the
membership test succeeds (string indexing / `del` with a string index),
`KeyError` when it fails; the remaining scalars raise `TypeError` from
`in` itself. -/
def deletePath (wname fpath : String) : Json → List String → Except Err Json
  | _, [] => .error .indexError
  | .obj kvs, [k] =>
    if (lookupKV kvs k).isSome then .ok (.obj (eraseKV kvs k))
    else .error (.keyError (keyErrMsg fpath wname))
  | .str s, [k] =>
    if listHasSub k.data s.data then .error .typeError
    else .error (.keyError (keyErrMsg fpath wname))
  | .arr xs, [k] =>
    if xs.any (fun j => jsonEqStr j k) then .error .typeError
    else .error (.keyError (keyErrMsg fpath wname))
  | _, [_] => .error .typeError
  | .obj kvs, k :: k2 :: ks =>
    match lookupKV kvs k with
    | some (.obj m) =>
      match deletePath wname fpath (.obj m) (k2 :: ks) with
      | .error e => .error e
      | .ok m' => .ok (.obj (insertKV kvs k m'))
    | some _ => .error (.keyError (keyErrMsg fpath wname))
    | none => .error (.keyError (keyErrMsg fpath wname))
  | .str s, k :: _ :: _ =>
    if listHasSub k.data s.data then .error .typeError
    else .error (.keyError (keyErrMsg fpath wname))
  | .arr xs, k :: _ :: _ =>
    if xs.any (fun j => jsonEqStr j k) then .error .typeError
    else .error (.keyError (keyErrMsg fpath wname))
  | _, _ :: _ :: _ => .error .typeError

/-- The configuration directory as seen by `config_manager` /
`config_editor`: whether `CONFIG_DIR` exists, and its regular `.json`
files as `(filename, parsed content)` pairs. -/
structure ConfigFS where
  dirExists : Bool
  files : List (String × Json)

/-- `_load_config_data` (`config_editor.py:21-37`): resolve the path
(raising if `CONFIG_DIR` is missing), check existence, parse.  Contents
are modelled post-parse, so the `json.JSONDecodeError` branch has no
inhabitant here. -/
def loadConfigData (fs : ConfigFS) (wname : String) : Except Err Json :=
  if !fs.dirExists then
    .error (.fileNotFound
      "Configuration directory 'assets/configs' not found. Please create it or set WRAPMAN_CONFIG_DIR.")
  else
    match lookupKV fs.files (wname ++ ".json") with
    | none => .error (.fileNotFound ("Config file 'assets/configs/" ++ wname ++ ".json' not found."))
    | some j => .ok j

/-- `_save_config_data` (`config_editor.py:40-52`): resolve the path
(raising if `CONFIG_DIR` is missing) and overwrite the file in full. -/
def saveConfigData (fs : ConfigFS) (wname : String) (d : Json) : Except Err ConfigFS :=
  if !fs.dirExists then
    .error (.fileNotFound
      "Configuration directory 'assets/configs' not found. Please create it or set WRAPMAN_CONFIG_DIR.")
  else .ok { fs with files := insertKV fs.files (wname ++ ".json") d }

/-- `delete_config_field` (`config_editor.py:100-124`): load the whole
document, delete the dotted field in memory, then save; a raise at any
step leaves the filesystem as it was. -/
def delete_config_field (fs : ConfigFS) (wname fpath : String) :
    ConfigFS × Except Err Bool :=
  match loadConfigData fs wname with
  | .error e => (fs, .error e)
  | .ok data =>
    match deletePath wname fpath data (splitPath fpath) with
    | .error e => (fs, .error e)
    | .ok data' =>
      match saveConfigData fs wname data' with
      | .error e => (fs, .error e)
      | .ok fs' => (fs', .ok true)

/-- `update_config_field` (`config_editor.py:75-97`): load, set the
dotted field in memory, save, return `True`. -/
def update_config_field (fs : ConfigFS) (wname fpath : String) (v : Json) :
    ConfigFS × Except Err Bool :=
  match loadConfigData fs wname with
  | .error e => (fs, .error e)
  | .ok data =>
    match setPath data (splitPath fpath) v with
    | .error e => (fs, .error e)
    | .ok data' =>
      match saveConfigData fs wname data' with
      | .error e => (fs, .error e)
      | .ok fs' => (fs', .ok true)

/-- `add_config` (`config_manager.py:9-40`): reject a non-dict payload,
require the config directory, then `open(file_path, "x")` — a single
exclusive-create filesystem primitive that fails with `FileExistsError`
when the file is already present and otherwise writes `json.dump(data)`.
This step is one atomic operation in the model, as in the source. -/
def add_config (fs : ConfigFS) (wname : String) (data : Json) :
    ConfigFS × Except Err Bool :=
  if !data.isObj then (fs, .error .typeError)
  else if !fs.dirExists then (fs, .error (.fileNotFound "Directory 'config' not found."))
  else
    match lookupKV fs.files (wname ++ ".json") with
    | some _ =>
      (fs, .error (.fileExists
        ("Config file '" ++ wname ++ ".json' already exists in 'config'.")))
    | none => ({ fs with files := fs.files ++ [(wname ++ ".json", data)] }, .ok true)

/-- `rename_config` (`config_manager.py:70-107`): require the directory,
fail `FileNotFoundError` when the old file is absent, then no-op when
the names coincide, fail `FileExistsError` when the new file is already
present, else `os.rename` — the content moves unchanged. -/
def rename_config (fs : ConfigFS) (oldW newW : String) : ConfigFS × Except Err Bool :=
  if !fs.dirExists then (fs, .error (.fileNotFound "Directory 'config' not found."))
  else
    match lookupKV fs.files (oldW ++ ".json") with
    | none =>
      (fs, .error (.fileNotFound
        ("Config file '" ++ oldW ++ ".json' not found in 'config'.")))
    | some content =>
      if oldW = newW then (fs, .ok true)
      else
        match lookupKV fs.files (newW ++ ".json") with
        | some _ =>
          (fs, .error (.fileExists
            ("A config file with the name '" ++ newW ++ ".json' already exists in 'config'.")))
        | none =>
          ({ fs with
             files := insertKV (eraseKV fs.files (oldW ++ ".json")) (newW ++ ".json") content },
           .ok true)

/-- Python `s.endswith(t)`. -/
def strEndsWith (s t : String) : Bool :=
  listStartsWith t.data.reverse s.data.reverse

/-- Python `s.removesuffix(".json")`. -/
def removeJsonSuffix (s : String) : String :=
  if strEndsWith s ".json" then String.mk (s.data.take (s.data.length - 5)) else s

/-- A directory listing entry for `list_config`: a name and whether
`os.path.isfile` holds for it. -/
structure DirEntry where
  name : String
  isFile : Bool

/-- `list_config` (`config_manager.py:110-128`): require the directory,
then keep every `os.listdir` entry that ends in `.json` and is a regular
file, stripping the `.json` suffix.  No other condition is applied to
the name. -/
def list_config (dirExists : Bool) (entries : List DirEntry) : Except Err (List String) :=
  if !dirExists then .error (.fileNotFound "Directory 'config' not found.")
  else
    .ok ((entries.filter (fun e => strEndsWith e.name ".json" && e.isFile)).map
      (fun e => removeJsonSuffix e.name))

/-- Modelled from the spec: the `NameValidator` component
(spec §4.1), absent from `src/` but exercised by the repository's own
tests — a name is valid iff it is non-empty and every character is an
ASCII letter, digit, underscore or hyphen (`^[A-Za-z0-9_-]+$`). -/
def isValidName (name : String) : Bool :=
  !name.data.isEmpty &&
    name.data.all (fun c => c.isAlpha || c.isDigit || c = '_' || c = '-')

/-- First hit of `f` over a list. -/
def firstSome {α β : Type} (f : α → Option β) : List α → Option β
  | [] => none
  | a :: rest =>
    match f a with
    | some b => some b
    | none => firstSome f rest

/-- First hit of `f` over a list, tracking element indices. -/
def firstSomeIdx {β : Type} (f : Nat → Json → Option β) : List Json → Nat → Option β
  | [], _ => none
  | x :: rest, i =>
    match f i x with
    | some b => some b
    | none => firstSomeIdx f rest (i + 1)

/-- Modelled from the spec: the `repr` of a JSON scalar as it appears in
jsonschema rule messages (e.g. `'not an integer' is not of type
'integer'`). -/
def jsonReprLite : Json → String
  | .str s => "'" ++ s ++ "'"
  | .num n => toString n
  | .bool b => if b then "True" else "False"
  | .null => "None"
  | .arr _ => "[...]"
  | .obj _ => "\x7b...\x7d"

/-- Modelled from the spec: a validation failure as produced by the
external jsonschema library — the path to the offending node (keys and
array indices, outermost first) and the rule message.  `validate_json`
in `config_manager.py` receives exactly this and keeps only `message`. -/
structure VErr where
  path : List String
  message : String
  deriving DecidableEq

/-- Modelled from the spec: the simple type names the jsonschema
meta-schema accepts for the `"type"` keyword. -/
def knownTypes : List String :=
  ["object", "array", "integer", "string", "number", "boolean", "null"]

/-- Modelled from the spec: does a JSON value inhabit a jsonschema
simple type? -/
def typeMatches (t : String) (d : Json) : Bool :=
  match d with
  | .obj _ => t = "object"
  | .arr _ => t = "array"
  | .num _ => t = "integer" || t = "number"
  | .str _ => t = "string"
  | .bool _ => t = "boolean"
  | .null => t = "null"

/-- Modelled from the spec: the meta-schema check jsonschema's
`validate` runs before touching the instance, restricted to the
`"type"`/`"properties"`/`"items"` keywords the repository uses; a
`"type"` value outside the known simple types is a `SchemaError`.
Recursion is bounded by `fuel`, which every caller passes well above
any schema depth in use. -/
def checkSchema (fuel : Nat) (s : Json) : Option String :=
  match fuel with
  | 0 => none
  | fuel + 1 =>
    match s with
    | .obj kvs =>
      (match lookupKV kvs "type" with
       | some (.str t) =>
         if knownTypes.contains t then none
         else some ("'" ++ t ++ "' is not valid under any of the given schemas")
       | some _ => some "the value of 'type' is not a string"
       | none => none)
      <|>
      (match lookupKV kvs "properties" with
       | some (.obj props) => firstSome (fun kv => checkSchema fuel kv.2) props
       | _ => none)
      <|>
      (match lookupKV kvs "items" with
       | some sub => checkSchema fuel sub
       | none => none)
    | _ => none

/-- Modelled from the spec: the instance-validation pass of the external
jsonschema library on the keyword fragment the repository uses
(`type`, `required`, `properties`, `items`), returning the first error
with its path to the offending node.  Recursion is bounded by `fuel`,
passed well above any document depth in use. -/
def jsValidate (fuel : Nat) (s d : Json) : Option VErr :=
  match fuel with
  | 0 => none
  | fuel + 1 =>
    match s with
    | .obj kvs =>
      (match lookupKV kvs "type" with
       | some (.str t) =>
         if typeMatches t d then none
         else some ⟨[], jsonReprLite d ++ " is not of type '" ++ t ++ "'"⟩
       | _ => none)
      <|>
      (match lookupKV kvs "required", d with
       | some (.arr reqs), .obj dkvs =>
         firstSome (fun r =>
           match r with
           | .str rn =>
             if (lookupKV dkvs rn).isSome then none
             else some ⟨[], "'" ++ rn ++ "' is a required property"⟩
           | _ => none) reqs
       | _, _ => none)
      <|>
      (match lookupKV kvs "properties", d with
       | some (.obj props), .obj dkvs =>
         firstSome (fun kv =>
           match lookupKV dkvs kv.1 with
           | some dv => (jsValidate fuel kv.2 dv).map (fun e => ⟨kv.1 :: e.path, e.message⟩)
           | none => none) props
       | _, _ => none)
      <|>
      (match lookupKV kvs "items", d with
       | some isch, .arr xs =>
         firstSomeIdx (fun i x =>
           (jsValidate fuel isch x).map (fun e => ⟨toString i :: e.path, e.message⟩)) xs 0
       | _, _ => none)
    | _ => none

/-- Recursion budget for the fuelled jsonschema model; far above the
depth of any schema or document in this development. -/
def jsFuel : Nat := 100

/-- `validate_json` (`config_manager.py:178-189`): call
`jsonschema.validate`; a `SchemaError` becomes
`ValueError(f"Schema is invalid: {e}")` and a `ValidationError` becomes
`ValueError(f"Validation failed: {e.message}")` — only `e.message` is
interpolated, the error's path is discarded. -/
def validate_json (data schema : Json) : Except Err Unit :=
  match checkSchema jsFuel schema with
  | some e => .error (.valueError ("Schema is invalid: " ++ e))
  | none =>
    match jsValidate jsFuel schema data with
    | some verr => .error (.valueError ("Validation failed: " ++ verr.message))
    | none => .ok ()

/-- `load_json_file` (`config_manager.py:160-175`) over a path-indexed
file store: `FileNotFoundError` when the path is absent, `ValueError`
when the content does not parse (`none` content), the parsed value
otherwise. -/
def load_json_file (files : List (String × Option Json)) (p : String) : Except Err Json :=
  match lookupKV files p with
  | none => .error (.fileNotFound ("File '" ++ p ++ "' not found."))
  | some none => .error (.valueError ("Invalid JSON format in '" ++ p ++ "'."))
  | some (some j) => .ok j

/-- `validate_config` (`config_manager.py:192-205`): join the config
path, load the schema file, load the config file, validate, return
`True`.  The wrapper name is interpolated into the path without any
validation. -/
def validate_config (files : List (String × Option Json)) (wname schemaPath : String) :
    Except Err Bool :=
  let configPath := "config/" ++ wname ++ ".json"
  match load_json_file files schemaPath with
  | .error e => .error e
  | .ok schemaData =>
    match load_json_file files configPath with
    | .error e => .error e
    | .ok configData =>
      match validate_json configData schemaData with
      | .error e => .error e
      | .ok _ => .ok true

/-- Python `s.strip()` on a character list. -/
def stripChars (l : List Char) : List Char :=
  ((l.dropWhile Char.isWhitespace).reverse.dropWhile Char.isWhitespace).reverse

/-- Python `s.strip()`. -/
def pyStrip (s : String) : String := String.mk (stripChars s.data)

/-- Scan for the closing parenthesis of a `$(...)` occurrence: the
characters before the first `')'` and the characters after it. -/
def spanToClose : List Char → Option (List Char × List Char)
  | [] => none
  | c :: cs =>
    if c = ')' then some ([], cs)
    else (spanToClose cs).map (fun p => (c :: p.1, p.2))

/-- The `([^)]+)` part of the pattern `\$\(([^)]+)\)`: at least one
non-`')'` character followed by `')'`; returns the captured inner text
and the remainder after the close. -/
def takeInner (l : List Char) : Option (List Char × List Char) :=
  match spanToClose l with
  | some (inner, rem) => if inner.isEmpty then none else some (inner, rem)
  | none => none

/-- The replacement for one matched occurrence, from `_replace`
(`base.py:21-30`): run the stripped captured command; on success the
replacement is the stripped output, on `CalledProcessError` it is the
empty string and a diagnostic line goes to stderr.  The executor `f`
returns the child's stdout or its non-zero exit code. -/
def substResult (f : String → Except Nat String) (inner : List Char) :
    List Char × List String :=
  let cmd := pyStrip (String.mk inner)
  match f cmd with
  | .ok out => ((pyStrip out).data, [])
  | .error code =>
    ([], ["[ERROR] Shell substitution failed for '" ++ cmd ++ "': Command '" ++ cmd ++
          "' returned non-zero exit status " ++ toString code ++ "."])

/-- Try to match `\$\(([^)]+)\)` at the head of the text: on success,
the captured inner text and everything after the closing `)`. -/
def headMatch : List Char → Option (List Char × List Char)
  | '$' :: '(' :: rest => takeInner rest
  | _ => none

/-- Does the pattern `\$\(([^)]+)\)` match at the head of the text? -/
def isMatchStart (l : List Char) : Bool := (headMatch l).isSome

/-- Does the pattern `\$\(([^)]+)\)` match anywhere in the text? -/
def hasMatch : List Char → Bool
  | [] => false
  | c :: cs => isMatchStart (c :: cs) || hasMatch cs

/-- `re.sub(r'\$\(([^)]+)\)', _replace, cmd)` from
`_expand_shell_substitutions` (`base.py:8-33`): left-to-right,
non-overlapping scan; at each position the pattern either matches —
consuming `$(`, the shortest non-empty `')'`-free inner text, and `)` —
and is replaced via `substResult` with scanning resuming after the
match, or the position's character is copied verbatim and scanning
advances one character.  Also returns the diagnostics printed to
stderr, in order.  The scan consumes at least one character per step,
so its recursion is driven by a length bound `n`; `scanSubstAux` below
instantiates `n` with the text's length, which `scanAux_congr` shows is
enough. -/
def scanAux (f : String → Except Nat String) : Nat → List Char → List Char × List String
  | 0, _ => ([], [])
  | _ + 1, [] => ([], [])
  | n + 1, c :: cs =>
    match headMatch (c :: cs) with
    | some (inner, rem) =>
      let sub := substResult f inner
      let t := scanAux f n rem
      (sub.1 ++ t.1, sub.2 ++ t.2)
    | none =>
      let t := scanAux f n cs
      (c :: t.1, t.2)

/-- The regex scan of `_expand_shell_substitutions` on a character
list. -/
def scanSubstAux (f : String → Except Nat String) (l : List Char) :
    List Char × List String :=
  scanAux f l.length l

/-- `_expand_shell_substitutions` (`base.py:8-33`) at the string level,
returning the expanded command and the stderr diagnostics. -/
def expandShell (f : String → Except Nat String) (cmd : String) : String × List String :=
  let r := scanSubstAux f cmd.data
  (String.mk r.1, r.2)

/-- An executor whose every command exits with status 1. -/
def failExec : String → Except Nat String := fun _ => .error 1

/-- An executor that succeeds, echoing its command plus a trailing
newline on stdout. -/
def echoExec : String → Except Nat String := fun s => .ok (s ++ "\n")

end Harnman

namespace Harnman

/-! ## Supporting lemmas -/

theorem lookupKV_insertKV_self {α : Type} (l : List (String × α)) (k : String) (v : α) :
    lookupKV (insertKV l k v) k = some v := by
  induction l with
  | nil => simp [insertKV, lookupKV]
  | cons p rest ih =>
    obtain ⟨k', v'⟩ := p
    by_cases hk : k' = k
    · simp [insertKV, hk, lookupKV]
    · simp [insertKV, hk, lookupKV, ih]

theorem lookupKV_append_self {α : Type} {l : List (String × α)} {k : String} (v : α)
    (h : lookupKV l k = none) : lookupKV (l ++ [(k, v)]) k = some v := by
  induction l with
  | nil => simp [lookupKV]
  | cons p rest ih =>
    obtain ⟨k', v'⟩ := p
    by_cases hk : k' = k
    · simp [lookupKV, hk] at h
    · simp [lookupKV, hk] at h ⊢
      exact ih h

theorem splitPathAux_ne_nil (l : List Char) : splitPathAux l ≠ [] := by
  cases l with
  | nil => simp [splitPathAux]
  | cons c cs =>
    rw [splitPathAux]
    cases hs : splitPathAux cs with
    | nil => simp
    | cons seg rest => by_cases hc : c = '.' <;> simp [hc]

theorem splitPath_ne_nil (s : String) : splitPath s ≠ [] := by
  unfold splitPath
  intro h
  exact splitPathAux_ne_nil s.data (List.map_eq_nil_iff.mp h)

theorem readPath_cons_found (wn fp k : String) (ks : List String)
    (kvs : List (String × Json)) (v : Json) (h : lookupKV kvs k = some v) :
    readPath wn fp (Json.obj kvs) (k :: ks) = readPath wn fp v ks := by
  simp [readPath, pyMember, pyIndexStr, h]

theorem setPath_readPath (wn fp : String) (v : Json) :
    ∀ (segs : List String) (kvs : List (String × Json)), segs ≠ [] →
      ∃ d, setPath (Json.obj kvs) segs v = .ok d ∧ readPath wn fp d segs = .ok v := by
  intro segs
  induction segs with
  | nil => intro kvs h; exact absurd rfl h
  | cons k ks ih =>
    intro kvs _
    cases ks with
    | nil =>
      refine ⟨Json.obj (insertKV kvs k v), rfl, ?_⟩
      rw [readPath_cons_found wn fp k [] _ v (lookupKV_insertKV_self kvs k v)]
      rfl
    | cons k2 ks2 =>
      have hchild : ∃ m0, (match lookupKV kvs k with
          | some (Json.obj m) => Json.obj m
          | _ => Json.obj []) = Json.obj m0 := by
        cases hl : lookupKV kvs k with
        | none => exact ⟨_, rfl⟩
        | some w => cases w <;> exact ⟨_, rfl⟩
      obtain ⟨m0, hm0⟩ := hchild
      obtain ⟨d2, hset, hread⟩ := ih m0 (by simp)
      refine ⟨Json.obj (insertKV kvs k d2), ?_, ?_⟩
      · simp only [setPath]
        rw [hm0, hset]
      · rw [readPath_cons_found wn fp k (k2 :: ks2) _ d2 (lookupKV_insertKV_self kvs k d2)]
        exact hread

theorem spanToClose_length {l inner rem : List Char}
    (h : spanToClose l = some (inner, rem)) : rem.length < l.length := by
  induction l generalizing inner rem with
  | nil => simp [spanToClose] at h
  | cons c cs ih =>
    rw [spanToClose] at h
    by_cases hc : c = ')'
    · simp [hc] at h
      rcases h with ⟨h1, h2⟩
      subst h2
      simp
    · simp [hc] at h
      cases hs : spanToClose cs with
      | none => rw [hs] at h; simp at h
      | some p =>
        obtain ⟨p1, p2⟩ := p
        rw [hs] at h
        simp at h
        obtain ⟨a, ⟨hp1, hp2⟩, hinner⟩ := h
        have hlt := @ih p1 p2 (by rw [hs])
        rw [← hp2]
        simp only [List.length_cons]
        omega

theorem takeInner_length {l inner rem : List Char}
    (h : takeInner l = some (inner, rem)) : rem.length < l.length := by
  unfold takeInner at h
  cases hs : spanToClose l with
  | none => rw [hs] at h; simp at h
  | some p =>
    obtain ⟨p1, p2⟩ := p
    rw [hs] at h
    by_cases he : p1.isEmpty
    · simp [he] at h
    · simp [he] at h
      rcases h with ⟨h1, h2⟩
      have hlt := @spanToClose_length l p1 p2 (by rw [hs])
      rw [← h2]
      exact hlt

theorem headMatch_length {l inner rem : List Char}
    (h : headMatch l = some (inner, rem)) : rem.length < l.length := by
  unfold headMatch at h
  split at h
  · next rest =>
    have := takeInner_length h
    simp only [List.length_cons]
    omega
  · next => simp at h

theorem scanAux_congr (f : String → Except Nat String) :
    ∀ (n m : Nat) (l : List Char), l.length ≤ n → l.length ≤ m →
      scanAux f n l = scanAux f m l := by
  intro n
  induction n with
  | zero =>
    intro m l hn hm
    have hl : l = [] := List.eq_nil_of_length_eq_zero (Nat.le_zero.mp hn)
    subst hl
    cases m <;> simp [scanAux]
  | succ n ih =>
    intro m l hn hm
    cases l with
    | nil => cases m <;> simp [scanAux]
    | cons c cs =>
      cases m with
      | zero => simp at hm
      | succ m' =>
        simp only [List.length_cons] at hn hm
        cases hh : headMatch (c :: cs) with
        | some p =>
          obtain ⟨inner, rem⟩ := p
          have hlen := headMatch_length hh
          simp only [List.length_cons] at hlen
          simp [scanAux, hh, ih m' rem (by omega) (by omega)]
        | none =>
          simp [scanAux, hh, ih m' cs (by omega) (by omega)]

theorem scan_skip (f : String → Except Nat String) {c : Char} {cs : List Char}
    (h : isMatchStart (c :: cs) = false) :
    scanSubstAux f (c :: cs) = (c :: (scanSubstAux f cs).1, (scanSubstAux f cs).2) := by
  have hh : headMatch (c :: cs) = none := by
    unfold isMatchStart at h
    exact Option.not_isSome_iff_eq_none.mp (by simp [h])
  unfold scanSubstAux
  simp [scanAux, hh]

theorem scan_match (f : String → Except Nat String) {l inner rem : List Char}
    (h : headMatch l = some (inner, rem)) :
    scanSubstAux f l =
      ((substResult f inner).1 ++ (scanSubstAux f rem).1,
       (substResult f inner).2 ++ (scanSubstAux f rem).2) := by
  have hlen := headMatch_length h
  cases l with
  | nil => simp [headMatch] at h
  | cons c cs =>
    unfold scanSubstAux
    simp only [List.length_cons]
    simp [scanAux, h]
    have := scanAux_congr f cs.length rem.length rem (by
      simp only [List.length_cons] at hlen; omega) (by omega)
    rw [this]
    exact ⟨rfl, rfl⟩

theorem hasMatch_cons_false {c : Char} {cs : List Char} (h : hasMatch (c :: cs) = false) :
    isMatchStart (c :: cs) = false ∧ hasMatch cs = false := by
  rw [hasMatch] at h
  exact Bool.or_eq_false_iff.mp h

theorem scan_nomatch_all (f : String → Except Nat String) {l : List Char}
    (h : hasMatch l = false) : scanSubstAux f l = (l, []) := by
  induction l with
  | nil => simp [scanSubstAux, scanAux]
  | cons c cs ih =>
    obtain ⟨h1, h2⟩ := hasMatch_cons_false h
    rw [scan_skip f h1, ih h2]

theorem spanToClose_append {inner : List Char} (post : List Char) (h : ')' ∉ inner) :
    spanToClose (inner ++ ')' :: post) = some (inner, post) := by
  induction inner with
  | nil => simp [spanToClose]
  | cons c cs ih =>
    simp at h
    have hc : ¬ c = ')' := fun hh => h.1 hh.symm
    rw [List.cons_append, spanToClose]
    simp [hc, ih h.2]

theorem takeInner_append {inner : List Char} (post : List Char) (hne : inner ≠ [])
    (h : ')' ∉ inner) : takeInner (inner ++ ')' :: post) = some (inner, post) := by
  unfold takeInner
  rw [spanToClose_append post h]
  simp [hne]

theorem headMatch_append {inner : List Char} (post : List Char) (hne : inner ≠ [])
    (h : ')' ∉ inner) :
    headMatch ('$' :: '(' :: (inner ++ ')' :: post)) = some (inner, post) := by
  unfold headMatch
  exact takeInner_append post hne h

end Harnman

namespace Harnman

/-! ## Claims -/

/-- C1: the claim says `list()` returns exactly the identifiers of
regular `.json` files whose stem is non-empty and matches
`[A-Za-z0-9_-]+`, excluding any stem with a character outside that set.
The code applies no such filter: on a directory holding the regular
files `valid_name.json` and `name.with.dots.json`, `list_config`
returns both stems, including `name.with.dots`, whose stem fails the
name validator — contradicting the claim and the repository's own test
`test_list_config_filters_invalid_names`. -/
theorem c1_list_config_includes_invalid_stems :
    list_config true [⟨"valid_name.json", true⟩, ⟨"name.with.dots.json", true⟩] =
      .ok ["valid_name", "name.with.dots"] ∧
    isValidName "name.with.dots" = false ∧ isValidName "valid_name" = true := by
  refine ⟨rfl, by decide, by decide⟩

/-- C2: for every field path `p` and value `v`, `set` on a fresh empty
document followed by `get` on the same path returns `v`, intermediate
objects being auto-created — including paths of three or more
segments. -/
theorem c2_set_then_get_roundtrip (wname p : String) (v : Json) :
    (setPath (Json.obj []) (splitPath p) v).bind
      (fun d => readPath wname p d (splitPath p)) = Except.ok v := by
  obtain ⟨d, hset, hread⟩ := setPath_readPath wname p v (splitPath p) [] (splitPath_ne_nil p)
  rw [hset]
  exact hread

/-- C3: on a loaded document (a JSON object, per the spec's data model)
`set` walks all but the last segment; a key that is missing or bound to
a non-object is overwritten with a fresh empty object and traversal
continues into it, while an object-bound key is descended into; the
final segment is assigned (created or overwritten) — and `set` never
fails on such a document. -/
theorem c3_set_step_semantics_and_totality :
    (∀ (kvs : List (String × Json)) (k : String) (v : Json),
       setPath (Json.obj kvs) [k] v = .ok (Json.obj (insertKV kvs k v))) ∧
    (∀ (kvs : List (String × Json)) (k k2 : String) (ks : List String) (v : Json),
       lookupKV kvs k = none →
       setPath (Json.obj kvs) (k :: k2 :: ks) v =
         Except.map (fun c => Json.obj (insertKV kvs k c)) (setPath (Json.obj []) (k2 :: ks) v)) ∧
    (∀ (kvs : List (String × Json)) (k k2 : String) (ks : List String) (v w : Json),
       lookupKV kvs k = some w → w.isObj = false →
       setPath (Json.obj kvs) (k :: k2 :: ks) v =
         Except.map (fun c => Json.obj (insertKV kvs k c)) (setPath (Json.obj []) (k2 :: ks) v)) ∧
    (∀ (kvs m : List (String × Json)) (k k2 : String) (ks : List String) (v : Json),
       lookupKV kvs k = some (Json.obj m) →
       setPath (Json.obj kvs) (k :: k2 :: ks) v =
         Except.map (fun c => Json.obj (insertKV kvs k c)) (setPath (Json.obj m) (k2 :: ks) v)) ∧
    (∀ (kvs : List (String × Json)) (segs : List String) (v : Json), segs ≠ [] →
       ∃ d, setPath (Json.obj kvs) segs v = .ok d) := by
  refine ⟨?_, ?_, ?_, ?_, ?_⟩
  · intro kvs k v; rfl
  · intro kvs k k2 ks v hl
    cases hr : setPath (Json.obj []) (k2 :: ks) v <;>
      simp [setPath, hl, hr, Except.map]
  · intro kvs k k2 ks v w hl hw
    cases w with
    | obj m => simp [Json.isObj] at hw
    | null =>
      cases hr : setPath (Json.obj []) (k2 :: ks) v <;> simp [setPath, hl, hr, Except.map]
    | bool b =>
      cases hr : setPath (Json.obj []) (k2 :: ks) v <;> simp [setPath, hl, hr, Except.map]
    | num n =>
      cases hr : setPath (Json.obj []) (k2 :: ks) v <;> simp [setPath, hl, hr, Except.map]
    | str s =>
      cases hr : setPath (Json.obj []) (k2 :: ks) v <;> simp [setPath, hl, hr, Except.map]
    | arr xs =>
      cases hr : setPath (Json.obj []) (k2 :: ks) v <;> simp [setPath, hl, hr, Except.map]
  · intro kvs m k k2 ks v hl
    cases hr : setPath (Json.obj m) (k2 :: ks) v <;>
      simp [setPath, hl, hr, Except.map]
  · intro kvs segs v hne
    obtain ⟨d, hset, _⟩ := setPath_readPath "w" "p" v segs kvs hne
    exact ⟨d, hset⟩

/-- Witness for C3 at concrete inputs: a one-segment assignment, the
three intermediate-step shapes (missing key, non-object value, object
value), and totality on a three-segment path. -/
theorem c3_set_step_semantics_witness :
    setPath (Json.obj []) ["a"] (Json.num 1) = .ok (Json.obj [("a", Json.num 1)]) ∧
    setPath (Json.obj []) ["a", "b"] (Json.num 2) =
      Except.map (fun c => Json.obj (insertKV [] "a" c)) (setPath (Json.obj []) ["b"] (Json.num 2)) ∧
    setPath (Json.obj [("fuzz", Json.str "x")]) ["fuzz", "opt"] (Json.num 3) =
      Except.map (fun c => Json.obj (insertKV [("fuzz", Json.str "x")] "fuzz" c))
        (setPath (Json.obj []) ["opt"] (Json.num 3)) ∧
    setPath (Json.obj [("fuzz", Json.obj [("m", Json.null)])]) ["fuzz", "opt"] (Json.num 4) =
      Except.map (fun c => Json.obj (insertKV [("fuzz", Json.obj [("m", Json.null)])] "fuzz" c))
        (setPath (Json.obj [("m", Json.null)]) ["opt"] (Json.num 4)) ∧
    ∃ d, setPath (Json.obj []) ["a", "b", "c"] (Json.num 5) = .ok d :=
  ⟨c3_set_step_semantics_and_totality.1 [] "a" (Json.num 1),
   c3_set_step_semantics_and_totality.2.1 [] "a" "b" [] (Json.num 2) rfl,
   c3_set_step_semantics_and_totality.2.2.1 [("fuzz", Json.str "x")] "fuzz" "opt" []
     (Json.num 3) (Json.str "x") rfl rfl,
   c3_set_step_semantics_and_totality.2.2.2.1 [("fuzz", Json.obj [("m", Json.null)])]
     [("m", Json.null)] "fuzz" "opt" [] (Json.num 4) rfl,
   c3_set_step_semantics_and_totality.2.2.2.2 [] ["a", "b", "c"] (Json.num 5) (by decide)⟩

/-- C4 counterexample: the claim says that at every step where the
current node is not an object containing the key — "for example the
node is a string, number, array, or an object lacking the key" — `get`
fails with KeyNotFound naming the full path and the document
identifier.  On the document `\x7b"a": 5\x7d` with path `a.b` the walk reaches
the number node `5` and Python's `"b" not in 5` raises `TypeError`, not
the claimed `KeyError`. -/
theorem c4_get_typeerror_counterexample :
    readPath "test_harness" "a.b" (Json.obj [("a", Json.num 5)]) (splitPath "a.b") =
      .error Err.typeError ∧
    Err.typeError ≠ Err.keyError (keyErrMsg "a.b" "test_harness") := by
  constructor
  · rfl
  · decide

/-- C4 amended: `get` walks the split path and, at each step, an object
lacking the key, a string not containing the key as a substring, and an
array not containing the key as an element fail with KeyNotFound naming
the full original path and the document's identifier; a number, boolean
or null node — and a string or array node on which the membership test
succeeds — fail with TypeError instead; otherwise the leaf value is
returned unmodified.  Stated as equality with `readPathAmended`, the
direct transcription of that case analysis. -/
theorem c4_get_amended_characterization (wname fpath : String) (ref : Json)
    (segs : List String) :
    readPath wname fpath ref segs = readPathAmended wname fpath ref segs := by
  induction segs generalizing ref with
  | nil => cases ref <;> rfl
  | cons k ks ih =>
    cases ref with
    | obj kvs =>
      cases hl : lookupKV kvs k with
      | none => simp [readPath, readPathAmended, pyMember, pyIndexStr, hl]
      | some v => simp [readPath, readPathAmended, pyMember, pyIndexStr, hl, ih]
    | str s =>
      by_cases hsub : listHasSub k.data s.data <;>
        simp [readPath, readPathAmended, pyMember, pyIndexStr, hsub]
    | arr xs =>
      by_cases he : xs.any (fun j => jsonEqStr j k) <;>
        simp [readPath, readPathAmended, pyMember, pyIndexStr, he]
    | null => rfl
    | bool b => rfl
    | num n => rfl

/-- C5: `add(n, d)` twice succeeds the first time and fails the second
time with AlreadyExists, leaving the filesystem exactly as after the
first call, with the stored content still the first `d`; the
existence check and creation are the single exclusive-create primitive
`open(path, "x")`, modelled as one atomic step. -/
theorem c5_add_exclusive_create (fs : ConfigFS) (wname : String) (d d' : Json)
    (hdir : fs.dirExists = true)
    (habs : lookupKV fs.files (wname ++ ".json") = none)
    (hd : d.isObj = true) (hd' : d'.isObj = true) :
    ∃ fs1, add_config fs wname d = (fs1, .ok true) ∧
      add_config fs1 wname d' =
        (fs1, .error (.fileExists
          ("Config file '" ++ wname ++ ".json' already exists in 'config'."))) ∧
      lookupKV fs1.files (wname ++ ".json") = some d := by
  refine ⟨{ fs with files := fs.files ++ [(wname ++ ".json", d)] }, ?_, ?_, ?_⟩
  · simp [add_config, hd, hdir, habs]
  · simp [add_config, hd', hdir, lookupKV_append_self d habs]
  · exact lookupKV_append_self d habs

/-- Witness for C5: adding `a` twice to an empty config directory. -/
theorem c5_add_exclusive_create_witness :
    ∃ fs1, add_config ⟨true, []⟩ "a" (Json.obj []) = (fs1, .ok true) ∧
      add_config fs1 "a" (Json.obj [("x", Json.num 1)]) =
        (fs1, .error (.fileExists
          ("Config file '" ++ "a" ++ ".json' already exists in 'config'."))) ∧
      lookupKV fs1.files ("a" ++ ".json") = some (Json.obj []) :=
  c5_add_exclusive_create ⟨true, []⟩ "a" (Json.obj []) (Json.obj [("x", Json.num 1)]) rfl rfl rfl rfl

/-- C6 counterexample: the claim says `rename(a, a)` is a no-op
returning success for every name `a`; but the existence check precedes
the same-name check, so on a directory without `ghost.json`,
`rename_config "ghost" "ghost"` fails with FileNotFoundError instead of
succeeding. -/
theorem c6_rename_same_missing_counterexample :
    (rename_config ⟨true, []⟩ "ghost" "ghost").2 =
      .error (.fileNotFound "Config file 'ghost.json' not found in 'config'.") ∧
    (Except.error (Err.fileNotFound "Config file 'ghost.json' not found in 'config'.") :
      Except Err Bool) ≠ Except.ok true := by
  constructor
  · rfl
  · intro hcontra
    exact Except.noConfusion hcontra

/-- C6 amended: when the old file exists (and the directory does),
`rename(a, a)` is a no-op returning success; for distinct names with
the target present, rename fails with AlreadyExists leaving the
filesystem untouched; with the target absent it is a pure filesystem
rename, the content moving unchanged. -/
theorem c6_rename_amended (fs : ConfigFS) (a b : String) (ca : Json)
    (hdir : fs.dirExists = true)
    (ha : lookupKV fs.files (a ++ ".json") = some ca) :
    (a = b → rename_config fs a b = (fs, .ok true)) ∧
    (a ≠ b → ∀ cb, lookupKV fs.files (b ++ ".json") = some cb →
      rename_config fs a b =
        (fs, .error (.fileExists
          ("A config file with the name '" ++ b ++ ".json' already exists in 'config'.")))) ∧
    (a ≠ b → lookupKV fs.files (b ++ ".json") = none →
      rename_config fs a b =
        ({ fs with
           files := insertKV (eraseKV fs.files (a ++ ".json")) (b ++ ".json") ca },
         .ok true) ∧
      lookupKV (insertKV (eraseKV fs.files (a ++ ".json")) (b ++ ".json") ca)
        (b ++ ".json") = some ca) := by
  refine ⟨?_, ?_, ?_⟩
  · intro hab
    subst hab
    simp [rename_config, hdir, ha]
  · intro hab cb hb
    simp [rename_config, hdir, ha, hab, hb]
  · intro hab hb
    refine ⟨?_, lookupKV_insertKV_self _ _ _⟩
    simp [rename_config, hdir, ha, hab, hb]

/-- Witness for C6 at concrete directories: same-name no-op, rename
onto an existing target, and a plain rename. -/
theorem c6_rename_amended_witness :
    rename_config ⟨true, [("a.json", Json.null), ("b.json", Json.bool true)]⟩ "a" "a" =
      (⟨true, [("a.json", Json.null), ("b.json", Json.bool true)]⟩, .ok true) ∧
    rename_config ⟨true, [("a.json", Json.null), ("b.json", Json.bool true)]⟩ "a" "b" =
      (⟨true, [("a.json", Json.null), ("b.json", Json.bool true)]⟩,
       .error (.fileExists
         ("A config file with the name '" ++ "b" ++ ".json' already exists in 'config'."))) ∧
    rename_config ⟨true, [("a.json", Json.null)]⟩ "a" "c" =
      (⟨true, insertKV (eraseKV [("a.json", Json.null)] ("a" ++ ".json")) ("c" ++ ".json")
         Json.null⟩, .ok true) := by
  refine ⟨?_, ?_, ?_⟩
  · exact (c6_rename_amended ⟨true, [("a.json", Json.null), ("b.json", Json.bool true)]⟩
      "a" "a" Json.null rfl rfl).1 rfl
  · exact (c6_rename_amended ⟨true, [("a.json", Json.null), ("b.json", Json.bool true)]⟩
      "a" "b" Json.null rfl rfl).2.1 (by decide) (Json.bool true) rfl
  · exact ((c6_rename_amended ⟨true, [("a.json", Json.null)]⟩
      "a" "c" Json.null rfl rfl).2.2 (by decide) rfl).1

/-- C7: the claim says `validateHarness` fails with InvalidName before
any I/O for every name failing `^[A-Za-z0-9_-]+$`.  The code performs
no name validation at all: with both files on disk,
`validate_config` on the invalid name `"name with spaces"` loads the
schema and the config and returns success — contradicting the claim and
the repository's own test `test_validate_config_invalid_harness_name`. -/
theorem c7_validate_config_skips_name_validation :
    validate_config
      [("schema.json", some (Json.obj [("type", Json.str "object")])),
       ("config/name with spaces.json", some (Json.obj []))]
      "name with spaces" "schema.json" = .ok true ∧
    isValidName "name with spaces" = false := by
  refine ⟨rfl, by decide⟩

/-- C8: the claim says ValidationFailed carries a human-readable path to
the first offending node (e.g. `nested -> array -> 1`) in addition to
the rule message.  The jsonschema error for the nested-array document
does carry the path `nested, array, 1`, but `validate_json`
interpolates only `e.message`: the raised ValueError's payload is
exactly `Validation failed: 'not an integer' is not of type 'integer'`,
which mentions neither `nested` nor `array` — contradicting the claim
and the repository's own test
`test_validate_config_detailed_error_message`. -/
theorem c8_validate_json_discards_error_path :
    validate_json
      (Json.obj [("nested",
        Json.obj [("array", Json.arr [Json.num 1, Json.str "not an integer", Json.num 3])])])
      (Json.obj [("type", Json.str "object"),
        ("properties", Json.obj [("nested", Json.obj [("type", Json.str "object"),
          ("properties", Json.obj [("array", Json.obj [("type", Json.str "array"),
            ("items", Json.obj [("type", Json.str "integer")])])])])])]) =
      .error (.valueError "Validation failed: 'not an integer' is not of type 'integer'") ∧
    jsValidate jsFuel
      (Json.obj [("type", Json.str "object"),
        ("properties", Json.obj [("nested", Json.obj [("type", Json.str "object"),
          ("properties", Json.obj [("array", Json.obj [("type", Json.str "array"),
            ("items", Json.obj [("type", Json.str "integer")])])])])])])
      (Json.obj [("nested",
        Json.obj [("array", Json.arr [Json.num 1, Json.str "not an integer", Json.num 3])])]) =
      some ⟨["nested", "array", "1"], "'not an integer' is not of type 'integer'"⟩ ∧
    listHasSub "nested".data
      "Validation failed: 'not an integer' is not of type 'integer'".data = false ∧
    listHasSub "array".data
      "Validation failed: 'not an integer' is not of type 'integer'".data = false := by
  refine ⟨rfl, rfl, by decide, by decide⟩

/-- C9: shell-substitution expansion replaces each `$(...)` occurrence
(single parenthesis level, non-empty inner text) by the trimmed output
of executing the trimmed captured text when execution succeeds, and by
the empty string plus a stderr diagnostic when it exits non-zero,
scanning continuing after the occurrence; text outside occurrences is
preserved verbatim, and `"clang $(fail) bar"` with a failing inner
command expands to `"clang  bar"` with one diagnostic. -/
theorem c9_shell_substitution_expansion (f : String → Except Nat String) (cmd : String)
    (inner post : List Char) (out : String) (code : Nat) (c : Char) (cs : List Char) :
    (hasMatch cmd.data = false → expandShell f cmd = (cmd, [])) ∧
    (inner ≠ [] → ')' ∉ inner → f (pyStrip (String.mk inner)) = .ok out →
      scanSubstAux f ('$' :: '(' :: (inner ++ ')' :: post)) =
        ((pyStrip out).data ++ (scanSubstAux f post).1, (scanSubstAux f post).2)) ∧
    (inner ≠ [] → ')' ∉ inner → f (pyStrip (String.mk inner)) = .error code →
      scanSubstAux f ('$' :: '(' :: (inner ++ ')' :: post)) =
        ((scanSubstAux f post).1,
         ("[ERROR] Shell substitution failed for '" ++ pyStrip (String.mk inner) ++
          "': Command '" ++ pyStrip (String.mk inner) ++
          "' returned non-zero exit status " ++ toString code ++ ".") ::
           (scanSubstAux f post).2)) ∧
    (isMatchStart (c :: cs) = false →
      scanSubstAux f (c :: cs) = (c :: (scanSubstAux f cs).1, (scanSubstAux f cs).2)) ∧
    expandShell failExec "clang $(fail) bar" =
      ("clang  bar",
       ["[ERROR] Shell substitution failed for 'fail': Command 'fail' returned non-zero exit status 1."]) := by
  refine ⟨?_, ?_, ?_, scan_skip f, ?_⟩
  · intro h
    unfold expandShell
    rw [scan_nomatch_all f h]
  · intro hne hnotin hf
    rw [scan_match f (headMatch_append post hne hnotin)]
    simp [substResult, hf]
  · intro hne hnotin hf
    rw [scan_match f (headMatch_append post hne hnotin)]
    simp [substResult, hf]
  · simp [expandShell, scanSubstAux, scanAux, headMatch, takeInner, spanToClose, substResult,
      failExec, pyStrip, stripChars]
    rfl

/-- Witness for C9: each conjunct instantiated at a concrete executor
and text — a match-free command, a successful substitution, a failing
substitution, a verbatim character, and the `clang` scenario. -/
theorem c9_shell_substitution_expansion_witness :
    expandShell echoExec "echo test" = ("echo test", []) ∧
    scanSubstAux echoExec ('$' :: '(' :: ("pwd".data ++ ')' :: " x".data)) =
      ((pyStrip "pwd\n").data ++ (scanSubstAux echoExec " x".data).1,
       (scanSubstAux echoExec " x".data).2) ∧
    scanSubstAux failExec ('$' :: '(' :: ("fail".data ++ ')' :: [])) =
      ((scanSubstAux failExec ([] : List Char)).1,
       ("[ERROR] Shell substitution failed for '" ++ pyStrip (String.mk "fail".data) ++
        "': Command '" ++ pyStrip (String.mk "fail".data) ++
        "' returned non-zero exit status " ++ toString 1 ++ ".") ::
         (scanSubstAux failExec ([] : List Char)).2) ∧
    scanSubstAux failExec ('a' :: []) =
      ('a' :: (scanSubstAux failExec []).1, (scanSubstAux failExec []).2) ∧
    expandShell failExec "clang $(fail) bar" =
      ("clang  bar",
       ["[ERROR] Shell substitution failed for 'fail': Command 'fail' returned non-zero exit status 1."]) :=
  ⟨(c9_shell_substitution_expansion echoExec "echo test" [] [] "" 0 'a' []).1 (by decide),
   (c9_shell_substitution_expansion echoExec "x" "pwd".data " x".data "pwd\n" 0 'a' []).2.1
     (by decide) (by decide) (by rfl),
   (c9_shell_substitution_expansion failExec "x" "fail".data [] "" 1 'a' []).2.2.1
     (by decide) (by decide) (by rfl),
   (c9_shell_substitution_expansion failExec "x" [] [] "" 0 'a' []).2.2.2.1 (by decide),
   (c9_shell_substitution_expansion failExec "x" [] [] "" 0 'a' []).2.2.2.2⟩

/-- C10: whenever the field delete operation fails with KeyNotFound —
intermediate segment missing or bound to a non-object, or final key
absent — the error is raised before any save, so the stored document
is unchanged by the failed call. -/
theorem c10_delete_field_error_atomicity (fs : ConfigFS) (wname fpath m : String)
    (h : (delete_config_field fs wname fpath).2 = .error (.keyError m)) :
    (delete_config_field fs wname fpath).1 = fs := by
  unfold delete_config_field at h ⊢
  cases hl : loadConfigData fs wname with
  | error e => simp [hl]
  | ok data =>
    cases hd : deletePath wname fpath data (splitPath fpath) with
    | error e => simp [hl, hd]
    | ok data' =>
      cases hs : saveConfigData fs wname data' with
      | error e => simp [hl, hd, hs]
      | ok fs' => simp [hl, hd, hs] at h

/-- Witness for C10: deleting the missing field `fuzz.options` from a
stored `\x7b"fuzz": \x7b\x7d\x7d` fails with KeyError and leaves the
filesystem unchanged. -/
theorem c10_delete_field_error_atomicity_witness :
    (delete_config_field ⟨true, [("h.json", Json.obj [("fuzz", Json.obj [])])]⟩
      "h" "fuzz.options").1 = ⟨true, [("h.json", Json.obj [("fuzz", Json.obj [])])]⟩ :=
  c10_delete_field_error_atomicity _ "h" "fuzz.options" (keyErrMsg "fuzz.options" "h") (by rfl)

end Harnman
